import Mathlib

/-!
Shallow embedding of `src/Pingdom_Redirect_Checker_2.1.py`.

The network effects of the program are modelled as explicit environments:
* `probe`   — the HTTP call made by `perform_pingdom_check` (per api_key and
  target_url): either a parsed JSON body whose optional `result` object carries
  four optional string fields, or a raised `requests.exceptions.RequestException`
  carried as a message string;
* `dns`     — per hostname, the outcome of `dns.resolver.Resolver()` construction
  (`init = some e` models the constructor raising, caught by the outer
  `except` at lines 76-77) and, for each of the record types A/CNAME/NS, either
  the list of `rdata.to_text()` strings returned by `resolver.resolve`
  (empty list = "no answer" under `raise_on_no_answer=False`, which makes the
  Answer object falsy) or a raised exception message;
* `http`    — per request URL, the response of `session.get(url,
  allow_redirects=False)` or a raised `RequestException` message.

`requests` library semantics used by the code: `Response.is_redirect` is true
exactly when a `Location` header is present and the status code is one of
301, 302, 303, 307, 308.
-/

/- String literals of the source, named so they can be shared by the
   definitions and the theorems. -/

def sepComma : String := ", "

def sepPipe : String := " | "

def arrow : String := " => "

def schemeHttp : String := "http://"

def schemeHttps : String := "https://"

def slashStr : String := "/"

def nASentinel : String := "N/A"

def noResultReturned : String := "No result returned"

def errorColon : String := "Error: "

def noRedirection : String := " (No redirection)"

def noRedirectMsg : String := "No Redirect"

def requestFailed : String := "Request Failed: "

def dnsLookup : String := "DNS Lookup "

def failedColon : String := " Failed: "

def dnsLookupFailed : String := "DNS Lookup Failed: "

def labelA : String := "A"

def labelCNAME : String := "CNAME"

def labelNS : String := "NS"

def noA : String := "No A Records Found"

def noCNAME : String := "No CNAME Records Found"

def noNS : String := "No NS Records Found"

def twoHundredArrow : String := "200 => "

/- ### Data model -/

/-- One entry of the `checks` list: `check.get(x)` for x in id, name, hostname. -/
structure HostCheck where
  id : String
  name : String
  hostname : String
deriving DecidableEq, Repr

/-- The optional `result` object of the JSON body of the probe API; each field is
`None`/absent (mapped to the N/A sentinel via `.get(key, default)`) or a string. -/
structure ProbeResultData where
  status : Option String
  probedesc : Option String
  statusdesc : Option String
  statusdesclong : Option String
deriving DecidableEq, Repr

/-- Outcome of the probe HTTP call in `perform_pingdom_check`:
`ok d` = 2xx response with JSON body whose `result` key is `d`
(`none` models both an absent and a falsy `result`);
`exn e` = `requests.exceptions.RequestException` with message `e`
(this includes `raise_for_status` errors). -/
inductive ProbeHttp where
  | ok : Option ProbeResultData → ProbeHttp
  | exn : String → ProbeHttp
deriving DecidableEq, Repr

/-- One `requests` response as the code inspects it: `status_code`,
the optional `Location` header, and `url`. -/
structure HttpResponse where
  status_code : Nat
  location : Option String
  url : String
deriving DecidableEq, Repr

/-- Outcome of one `session.get(url, allow_redirects=False)`:
a response, or a raised `RequestException` message. -/
inductive HttpResult where
  | ok : HttpResponse → HttpResult
  | error : String → HttpResult
deriving DecidableEq, Repr

/-- The redirect statuses of `requests.Response.is_redirect`
(`REDIRECT_STATI`). -/
def redirectStati : List Nat := [301, 302, 303, 307, 308]

/-- `requests.Response.is_redirect`: a `Location` header is present and the
status code is a redirect status. -/
def HttpResponse.is_redirect (r : HttpResponse) : Bool :=
  r.location.isSome && redirectStati.contains r.status_code

/-- Outcome of one `resolver.resolve(hostname, rtype, raise_on_no_answer=False)`:
`answers l` = the list of `rdata.to_text()` strings (possibly empty — the
falsy "no answer" Answer); `exn e` = any raised exception, message `e`. -/
inductive DnsOutcome where
  | answers : List String → DnsOutcome
  | exn : String → DnsOutcome
deriving DecidableEq, Repr

/-- The DNS environment for one hostname. `init = some e` models
`dns.resolver.Resolver()` raising `e` (the only statement of the outer `try`
of lines 52-77 that is not inside one of the inner `try` blocks). -/
structure DnsEnv where
  init : Option String
  a : DnsOutcome
  cname : DnsOutcome
  ns : DnsOutcome
deriving DecidableEq, Repr

/-- The dict built by `check_redirects_and_dns`
(the keys A Records, CNAME Records, NS Records, Redirect Path). -/
structure RedirectDnsRecord where
  a_records : String
  cname_records : String
  ns_records : String
  redirect_path : String
deriving DecidableEq, Repr

/-- The whole network environment of one run. -/
structure Env where
  probe : String → String → ProbeHttp
  dns : String → DnsEnv
  http : String → HttpResult

/- ### perform_pingdom_check (lines 27-46) -/

/-- Lines 27-46. Returns `(target_url, [check_name, target_url, status,
probedesc, statusdesc, statusdesclong, check_id])`; a `RequestException`
becomes the `Error: {e}` status row, an absent/falsy `result` object the
`No result returned` row. -/
def perform_pingdom_check (probe : String → String → ProbeHttp)
    (api_key check_id check_name target_url : String) : String × List String :=
  match probe api_key target_url with
  | .exn e =>
      (target_url,
       [check_name, target_url, errorColon ++ e, nASentinel, nASentinel, nASentinel, check_id])
  | .ok none =>
      (target_url,
       [check_name, target_url, noResultReturned, nASentinel, nASentinel, nASentinel, check_id])
  | .ok (some d) =>
      (target_url,
       [check_name, target_url, d.status.getD nASentinel, d.probedesc.getD nASentinel,
        d.statusdesc.getD nASentinel, d.statusdesclong.getD nASentinel, check_id])

/- ### check_redirects_and_dns (lines 49-112) -/

/-- Lines 56-74, one record type: the comma-join of the record texts if the
answer is truthy, else the No-T-Records-Found sentinel; on exception the
DNS-Lookup-T-Failed error string. -/
def dnsRecordsField (o : DnsOutcome) (label noneFound : String) : String :=
  match o with
  | .answers l => if l.isEmpty then noneFound else String.intercalate sepComma l
  | .exn e => dnsLookup ++ label ++ failedColon ++ e

/-- The startswith method of Python str, over the character sequence. -/
def strStartsWith (s p : String) : Bool :=
  p.data.isPrefixOf s.data

/-- Lines 91-96: resolve the `Location` header value against the original
hostname when it is not an absolute http/https URL. -/
def resolveLocation (hostname location : String) : String :=
  if strStartsWith location schemeHttp || strStartsWith location schemeHttps then
    location
  else if strStartsWith location slashStr then
    schemeHttp ++ hostname ++ location
  else
    schemeHttp ++ hostname ++ slashStr ++ location

/-- The `while response.is_redirect and redirect_count < 5` loop of lines
90-101, with `fuel = 5 - redirect_count` remaining iterations. Returns the
accumulated `redirects` list and the response after the loop, or the message
of a `RequestException` raised by one of the `session.get` calls (which, in
the source, aborts the whole `try` block of lines 80-107 and discards the
accumulated list). The `none` branch for the `Location` header is unreachable:
`is_redirect` requires a present `Location` header. -/
def followRedirects (http : String → HttpResult) (hostname : String) :
    HttpResponse → List String → Nat → Except String (List String × HttpResponse)
  | response, redirects, 0 => .ok (redirects, response)
  | response, redirects, fuel + 1 =>
    if response.is_redirect then
      match response.location with
      | none => .ok (redirects, response)
      | some rawLoc =>
        let location := resolveLocation hostname rawLoc
        match http location with
        | .error e => .error e
        | .ok response2 =>
            followRedirects http hostname response2
              (redirects ++ [toString response.status_code ++ arrow ++ location]) fuel
    else
      .ok (redirects, response)

/-- Lines 80-110: the value stored under the Redirect Path key. -/
def redirectPathOf (http : String → HttpResult) (hostname : String) : String :=
  match http (schemeHttp ++ hostname) with
  | .error e => requestFailed ++ e
  | .ok response =>
    if response.status_code == 200 then
      twoHundredArrow ++ response.url ++ noRedirection
    else if response.is_redirect then
      match followRedirects http hostname response [] 5 with
      | .error e => requestFailed ++ e
      | .ok (redirects, final) =>
          String.intercalate sepPipe
            (redirects ++ [toString final.status_code ++ arrow ++ final.url])
    else
      noRedirectMsg

/-- Lines 49-112: the DNS fields (lines 50-77 — on resolver-construction
failure only the A Records field is overwritten, the other fields keep
their initial empty string) together with the redirect path, returned as
`(hostname, result)`. -/
def check_redirects_and_dns (denv : DnsEnv) (http : String → HttpResult)
    (hostname : String) : String × RedirectDnsRecord :=
  let dnsPart : String × String × String :=
    match denv.init with
    | some e => (dnsLookupFailed ++ e, "", "")
    | none =>
        (dnsRecordsField denv.a labelA noA,
         dnsRecordsField denv.cname labelCNAME noCNAME,
         dnsRecordsField denv.ns labelNS noNS)
  (hostname,
   { a_records := dnsPart.1
     cname_records := dnsPart.2.1
     ns_records := dnsPart.2.2
     redirect_path := redirectPathOf http hostname })

/- ### process_hostname_batch (lines 115-135) and main (lines 138-175) -/

/-- The body of the `for check in batch` loop of lines 117-133: the combined
row `pingdom_result[1] + [hostname, A, CNAME, NS, Redirect Path]`.
The `sleep(2)` of line 134 only affects timing, not the data. -/
def combined_result (env : Env) (api_key : String) (check : HostCheck) : List String :=
  let pingdom_result :=
    perform_pingdom_check env.probe api_key check.id check.name check.hostname
  let dns_redirect_result :=
    check_redirects_and_dns (env.dns check.hostname) env.http check.hostname
  pingdom_result.2 ++
    [check.hostname, dns_redirect_result.2.a_records, dns_redirect_result.2.cname_records,
     dns_redirect_result.2.ns_records, dns_redirect_result.2.redirect_path]

/-- Lines 115-135: one batch, processed sequentially. -/
def process_hostname_batch (env : Env) (api_key : String)
    (batch : List HostCheck) : List (List String) :=
  batch.map (combined_result env api_key)

/-- Line 149. -/
def max_workers : Nat := 16

/-- Line 151: `[l[i:i+bs] for i in range(0, len(l), bs)]`, with the start
indices `0, bs, 2*bs, ...` enumerated as `k * bs` for
`k < ceil(len(l) / bs)` (the element count of `range(0, len(l), bs)`),
and `l[i:i+bs] = (l.drop i).take bs`. -/
def makeBatches (l : List α) (batch_size : Nat) : List (List α) :=
  (List.range ((l.length + batch_size - 1) / batch_size)).map
    (fun k => (l.drop (k * batch_size)).take batch_size)

/-- Lines 149-161: batch size `len // 16 + 1`, one future per batch, results
extended batch by batch (`as_completed` makes the merge order
nondeterministic; this model fixes submission order, and the claims proved
about it are order-insensitive). -/
def scheduler_results (env : Env) (api_key : String)
    (checks : List HostCheck) : List (List String) :=
  ((makeBatches checks (checks.length / max_workers + 1)).map
    (process_hostname_batch env api_key)).flatten

/-- What `main` does with its result: the early informational return of lines
141-143 (`print("No Pingdom checks found."); return`), or the rows handed to
the CSV writer. -/
inductive MainOutcome where
  | noChecks : MainOutcome
  | written : List (List String) → MainOutcome
deriving DecidableEq

/-- Model of `main`, lines 138-175 (CSV serialization itself out of scope): early
return when `checks` is falsy, otherwise filter by `hostname in target_urls`
and run the scheduler. -/
def mainRun (env : Env) (api_key : String) (checks : List HostCheck)
    (target_urls : List String) : MainOutcome :=
  if checks.isEmpty then
    .noChecks
  else
    let filtered_checks := checks.filter (fun check => target_urls.contains check.hostname)
    .written (scheduler_results env api_key filtered_checks)

/- ### Helper lemmas: the batch partition -/

theorem range_map_take_flatten (bs : Nat) (l : List α) :
    ∀ n : Nat,
      ((List.range n).map (fun k => (l.drop (k * bs)).take bs)).flatten = l.take (n * bs) := by
  intro n
  induction n with
  | zero => simp
  | succ m ih =>
    rw [List.range_succ, List.map_append, List.flatten_append]
    simp only [List.map_cons, List.map_nil, List.flatten_cons, List.flatten_nil,
      List.append_nil]
    rw [ih, Nat.succ_mul, List.take_add]

theorem length_le_ceil_mul (len bs : Nat) (hbs : 0 < bs) :
    len ≤ ((len + bs - 1) / bs) * bs := by
  have h2 := Nat.div_add_mod (len + bs - 1) bs
  have h1 : (len + bs - 1) % bs < bs := Nat.mod_lt _ hbs
  rw [Nat.mul_comm bs ((len + bs - 1) / bs)] at h2
  generalize hr : (len + bs - 1) % bs = r at *
  generalize hq : ((len + bs - 1) / bs) * bs = t at *
  omega

theorem makeBatches_flatten (l : List α) (bs : Nat) (hbs : 0 < bs) :
    (makeBatches l bs).flatten = l := by
  unfold makeBatches
  rw [range_map_take_flatten]
  exact List.take_of_length_le (length_le_ceil_mul l.length bs hbs)

/- ### Helper lemmas: the redirect loop -/

theorem is_redirect_parts (r : HttpResponse) (h : r.is_redirect = true) :
    (∃ loc, r.location = some loc) ∧ redirectStati.contains r.status_code = true := by
  unfold HttpResponse.is_redirect at h
  rw [Bool.and_eq_true] at h
  exact ⟨Option.isSome_iff_exists.mp h.1, h.2⟩

theorem is_redirect_status_ne_200 (r : HttpResponse) (h : r.is_redirect = true) :
    (r.status_code == 200) = false := by
  have h2 := (is_redirect_parts r h).2
  simp only [redirectStati, List.contains, List.elem_eq_mem, List.mem_cons, List.not_mem_nil,
    or_false, decide_eq_true_eq] at h2
  rcases h2 with h2 | h2 | h2 | h2 | h2 <;> simp [h2]

theorem followRedirects_ok_length (http : String → HttpResult) (hostname : String) :
    ∀ (fuel : Nat) (r : HttpResponse) (acc reds : List String) (fin : HttpResponse),
      followRedirects http hostname r acc fuel = .ok (reds, fin) →
      reds.length ≤ acc.length + fuel ∧
        ( fin.is_redirect = false ∨ reds.length = acc.length + fuel) := by
  intro fuel
  induction fuel with
  | zero =>
    intro r acc reds fin h
    simp only [followRedirects, Except.ok.injEq, Prod.mk.injEq] at h
    obtain ⟨h1, h2⟩ := h
    subst h1; subst h2
    simp
  | succ m ih =>
    intro r acc reds fin h
    by_cases hir : r.is_redirect = true
    · cases hloc : r.location with
      | none =>
        rw [HttpResponse.is_redirect, hloc] at hir
        simp at hir
      | some rawLoc =>
        simp only [followRedirects, hir, if_true, hloc] at h
        cases hh : http (resolveLocation hostname rawLoc) with
        | error e => rw [hh] at h; simp at h
        | ok r2 =>
          rw [hh] at h
          have := ih r2 (acc ++ [toString r.status_code ++ arrow ++ resolveLocation hostname rawLoc])
            reds fin h
          rcases this with ⟨hlen, hdisj⟩
          simp only [List.length_append, List.length_cons, List.length_nil] at hlen hdisj
          constructor
          · omega
          · rcases hdisj with hd | hd
            · exact Or.inl hd
            · exact Or.inr (by omega)
    · rw [Bool.not_eq_true] at hir
      simp only [followRedirects, hir, Bool.false_eq_true, if_false,
        Except.ok.injEq, Prod.mk.injEq] at h
      obtain ⟨h1, h2⟩ := h
      subst h1; subst h2
      constructor
      · omega
      · exact Or.inl hir

/-- The shape of every entry the redirect loop appends: the redirecting
own status code of the redirecting response, an arrow, and the resolved
location. -/
def hopShape (hostname : String) (s : String) : Prop :=
  ∃ (sc : Nat) (rawLoc : String), redirectStati.contains sc = true ∧
    s = toString sc ++ arrow ++ resolveLocation hostname rawLoc

theorem followRedirects_ok_shape (http : String → HttpResult) (hostname : String) :
    ∀ (fuel : Nat) (r : HttpResponse) (acc reds : List String) (fin : HttpResponse),
      followRedirects http hostname r acc fuel = .ok (reds, fin) →
      ∃ suffix : List String, reds = acc ++ suffix ∧ ∀ s ∈ suffix, hopShape hostname s := by
  intro fuel
  induction fuel with
  | zero =>
    intro r acc reds fin h
    simp only [followRedirects, Except.ok.injEq, Prod.mk.injEq] at h
    exact ⟨[], by simp [h.1.symm]⟩
  | succ m ih =>
    intro r acc reds fin h
    by_cases hir : r.is_redirect = true
    · cases hloc : r.location with
      | none =>
        rw [HttpResponse.is_redirect, hloc] at hir
        simp at hir
      | some rawLoc =>
        simp only [followRedirects, hir, if_true, hloc] at h
        cases hh : http (resolveLocation hostname rawLoc) with
        | error e => rw [hh] at h; simp at h
        | ok r2 =>
          rw [hh] at h
          obtain ⟨suffix, hs, hall⟩ :=
            ih r2 (acc ++ [toString r.status_code ++ arrow ++ resolveLocation hostname rawLoc])
              reds fin h
          refine ⟨(toString r.status_code ++ arrow ++ resolveLocation hostname rawLoc) :: suffix,
            by simpa using hs, ?_⟩
          intro s hmem
          rcases List.mem_cons.mp hmem with hs1 | hs2
          · exact ⟨r.status_code, rawLoc, (is_redirect_parts r hir).2, hs1⟩
          · exact hall s hs2
    · rw [Bool.not_eq_true] at hir
      simp only [followRedirects, hir, Bool.false_eq_true, if_false,
        Except.ok.injEq, Prod.mk.injEq] at h
      exact ⟨[], by simp [h.1.symm]⟩

theorem followRedirects_error_acc (http : String → HttpResult) (hostname : String) :
    ∀ (fuel : Nat) (r : HttpResponse) (acc acc2 : List String) (e : String),
      followRedirects http hostname r acc fuel = .error e →
      followRedirects http hostname r acc2 fuel = .error e := by
  intro fuel
  induction fuel with
  | zero =>
    intro r acc acc2 e h
    simp [followRedirects] at h
  | succ m ih =>
    intro r acc acc2 e h
    by_cases hir : r.is_redirect = true
    · cases hloc : r.location with
      | none =>
        rw [HttpResponse.is_redirect, hloc] at hir
        simp at hir
      | some rawLoc =>
        simp only [followRedirects, hir, if_true, hloc] at h ⊢
        cases hh : http (resolveLocation hostname rawLoc) with
        | error e2 => rw [hh] at h; exact h
        | ok r2 => rw [hh] at h; exact ih r2 _ _ e h
    · rw [Bool.not_eq_true] at hir
      simp [followRedirects, hir] at h

theorem followRedirects_redirect_step (http : String → HttpResult) (hostname : String)
    (fuel : Nat) (r : HttpResponse) (acc : List String) (rawLoc : String)
    (hir : r.is_redirect = true) (hloc : r.location = some rawLoc) :
    followRedirects http hostname r acc (fuel + 1) =
      match http (resolveLocation hostname rawLoc) with
      | .error e => .error e
      | .ok r2 =>
          followRedirects http hostname r2
            (acc ++ [toString r.status_code ++ arrow ++ resolveLocation hostname rawLoc]) fuel := by
  simp only [followRedirects, hir, if_true, hloc]

theorem redirectPathOf_initial_error (http : String → HttpResult) (hostname : String)
    (e : String) (h : http (schemeHttp ++ hostname) = .error e) :
    redirectPathOf http hostname = requestFailed ++ e := by
  unfold redirectPathOf
  rw [h]

theorem redirectPathOf_redirect (http : String → HttpResult) (hostname : String)
    (r : HttpResponse) (h : http (schemeHttp ++ hostname) = .ok r)
    (hir : r.is_redirect = true) :
    redirectPathOf http hostname =
      match followRedirects http hostname r [] 5 with
      | .error e => requestFailed ++ e
      | .ok (redirects, final) =>
          String.intercalate sepPipe
            (redirects ++ [toString final.status_code ++ arrow ++ final.url]) := by
  unfold redirectPathOf
  rw [h]
  simp [is_redirect_status_ne_200 r hir, hir]

/- ### Claim theorems -/

/-- C1: for every environment (hence regardless of how many sub-calls of a
hostname fail — failures are encoded as row data), the merged result list of
the scheduler is exactly the per-check combined results, one per submitted
HostCheck, so its cardinality equals the number of submitted checks. -/
theorem c1_one_combined_result_per_check (env : Env) (api_key : String)
    (checks : List HostCheck) :
    scheduler_results env api_key checks = checks.map (combined_result env api_key) ∧
    (scheduler_results env api_key checks).length = checks.length := by
  have hflat : (makeBatches checks (checks.length / max_workers + 1)).flatten = checks :=
    makeBatches_flatten checks _ (Nat.succ_pos _)
  have hmain : scheduler_results env api_key checks = checks.map (combined_result env api_key) := by
    unfold scheduler_results process_hostname_batch
    rw [← List.map_flatten, hflat]
  exact ⟨hmain, by rw [hmain, List.length_map]⟩

/-- C3: for every input sequence of checks and every positive lane count `N`,
the contiguous slices of batch size `len / N + 1` sum to the input length,
re-concatenate to the input itself, and contain every check exactly as often
as the input does (no check is processed by two lanes). -/
theorem c3_scheduler_partition (checks : List HostCheck) (N : Nat) (hN : 0 < N) :
    ((makeBatches checks (checks.length / N + 1)).map List.length).sum = checks.length ∧
    (makeBatches checks (checks.length / N + 1)).flatten = checks ∧
    ∀ c : HostCheck,
      ((makeBatches checks (checks.length / N + 1)).map (List.count c)).sum = checks.count c := by
  have hflat := makeBatches_flatten checks (checks.length / N + 1) (Nat.succ_pos _)
  refine ⟨?_, hflat, ?_⟩
  · rw [← List.length_flatten, hflat]
  · intro c
    rw [← List.count_flatten, hflat]

def wCheck1 : HostCheck := { id := "1", name := "one", hostname := "one.example" }

def wCheck2 : HostCheck := { id := "2", name := "two", hostname := "two.example" }

def wCheck3 : HostCheck := { id := "3", name := "three", hostname := "three.example" }

def wChecks : List HostCheck := [wCheck1, wCheck2, wCheck3]

/-- Witness for C3 at three checks and lane count 2. -/
theorem c3_scheduler_partition_witness :
    0 < 2 ∧
    ((makeBatches wChecks (wChecks.length / 2 + 1)).map List.length).sum = wChecks.length ∧
    (makeBatches wChecks (wChecks.length / 2 + 1)).flatten = wChecks :=
  ⟨by decide, (c3_scheduler_partition wChecks 2 (by decide)).1,
    (c3_scheduler_partition wChecks 2 (by decide)).2.1⟩

/-- C9: an empty check list produces no batches (no lanes are spawned), the
scheduler returns an empty result set, and `main` reports the
"No Pingdom checks found." informational early return rather than an error. -/
theorem c9_empty_checks (env : Env) (api_key : String) (target_urls : List String) :
    makeBatches ([] : List HostCheck) (([] : List HostCheck).length / max_workers + 1) = [] ∧
    scheduler_results env api_key [] = [] ∧
    mainRun env api_key [] target_urls = .noChecks :=
  ⟨rfl, rfl, rfl⟩

/-- C2: for every credential, check and environment — including environments
in which any subset of the sub-calls raises — the per-hostname composition
returns a full 12-field CombinedResult row (it is a total function of the
environment: no exception escapes), and a probe-call `RequestException`
appears as the `Error: {e}` string in the status column while a
request-level redirect failure appears as `Request Failed: {e}` in the
Redirect Path column. -/
theorem c2_no_exception_escapes (env : Env) (api_key : String) (check : HostCheck) :
    (combined_result env api_key check).length = 12 ∧
    (∀ e, env.probe api_key check.hostname = .exn e →
      (combined_result env api_key check).get? 2 = some (errorColon ++ e)) ∧
    (∀ e, env.http (schemeHttp ++ check.hostname) = .error e →
      (combined_result env api_key check).get? 11 = some (requestFailed ++ e)) := by
  refine ⟨?_, ?_, ?_⟩
  · cases hp : env.probe api_key check.hostname with
    | exn e => simp [combined_result, perform_pingdom_check, hp]
    | ok od =>
      cases od with
      | none => simp [combined_result, perform_pingdom_check, hp]
      | some d => simp [combined_result, perform_pingdom_check, hp]
  · intro e he
    simp [combined_result, perform_pingdom_check, he]
  · intro e he
    have hpath := redirectPathOf_initial_error env.http check.hostname e he
    cases hp : env.probe api_key check.hostname with
    | exn e2 => simp [combined_result, perform_pingdom_check, hp, check_redirects_and_dns, hpath]
    | ok od =>
      cases od with
      | none => simp [combined_result, perform_pingdom_check, hp, check_redirects_and_dns, hpath]
      | some d => simp [combined_result, perform_pingdom_check, hp, check_redirects_and_dns, hpath]

def wFailMsg : String := "probe timed out"

def wFailMsg2 : String := "connection refused"

def wDnsOk : DnsEnv :=
  { init := none, a := DnsOutcome.answers [], cname := DnsOutcome.answers [],
    ns := DnsOutcome.answers [] }

def wEnvFail : Env :=
  { probe := fun _ _ => ProbeHttp.exn wFailMsg,
    dns := fun _ => wDnsOk,
    http := fun _ => HttpResult.error wFailMsg2 }

def wKey : String := "key"

/-- Witness for C2 in an environment where both the probe call and the
initial redirect GET raise. -/
theorem c2_no_exception_escapes_witness :
    (combined_result wEnvFail wKey wCheck1).get? 2 = some (errorColon ++ wFailMsg) ∧
    (combined_result wEnvFail wKey wCheck1).get? 11 = some (requestFailed ++ wFailMsg2) :=
  ⟨(c2_no_exception_escapes wEnvFail wKey wCheck1).2.1 wFailMsg rfl,
   (c2_no_exception_escapes wEnvFail wKey wCheck1).2.2 wFailMsg2 rfl⟩

/-- C4: the redirect follow loop appends at most 5 followed hops, and the
loop only ends early (fewer than 5 hops) when the latest response is not a
redirect — exactly the loop guard
`while response.is_redirect and redirect_count < 5`. -/
theorem c4_hop_limit (http : String → HttpResult) (hostname : String) (r : HttpResponse)
    (reds : List String) ( fin : HttpResponse)
    (h : followRedirects http hostname r [] 5 = .ok (reds, fin)) :
    reds.length ≤ 5 ∧ ( fin.is_redirect = false ∨ reds.length = 5) := by
  have hlen := followRedirects_ok_length http hostname 5 r [] reds fin h
  simpa using hlen

def wHost : String := "w.example"

def wLoc : String := "/a"

def w200 : HttpResponse := { status_code := 200, location := none, url := "http://w.example/" }

def w301 : HttpResponse := { status_code := 301, location := some wLoc, url := "http://w.example" }

def wHttpOk : String → HttpResult := fun _ => HttpResult.ok w200

def wEntry : String := "301 => http://w.example/a"

/-- Witness for C4: one 301 hop followed by a 200 stops after one iteration. -/
theorem c4_hop_limit_witness :
    [wEntry].length ≤ 5 ∧ (w200.is_redirect = false ∨ [wEntry].length = 5) :=
  c4_hop_limit wHttpOk wHost w301 [wEntry] w200 (by rfl)

/-- C5: a `Location` value that starts with an http/https scheme passes
through unchanged; one that starts with `/` resolves to
`http://{hostname}{location}`; any other value resolves to
`http://{hostname}/{location}` — exactly one separator, no duplication. -/
theorem c5_location_resolution (hostname location : String) :
    (strStartsWith location schemeHttp = true ∨ strStartsWith location schemeHttps = true →
      resolveLocation hostname location = location) ∧
    (strStartsWith location schemeHttp = false → strStartsWith location schemeHttps = false →
      strStartsWith location slashStr = true →
      resolveLocation hostname location = schemeHttp ++ hostname ++ location) ∧
    (strStartsWith location schemeHttp = false → strStartsWith location schemeHttps = false →
      strStartsWith location slashStr = false →
      resolveLocation hostname location = schemeHttp ++ hostname ++ slashStr ++ location) := by
  refine ⟨?_, ?_, ?_⟩
  · intro h
    rcases h with h | h <;> simp [resolveLocation, h]
  · intro h1 h2 h3
    simp [resolveLocation, h1, h2, h3]
  · intro h1 h2 h3
    simp [resolveLocation, h1, h2, h3]

def exHostW : String := "example.com"

def exPathSlash : String := "/path"

def exPathBare : String := "path"

def exAbsUrl : String := "https://other.example/"

/-- Witness for C5 on the examples given in the spec: `/path` and `path` both
resolve to `http://example.com/path`; an absolute https URL is unchanged. -/
theorem c5_location_resolution_witness :
    resolveLocation exHostW exPathSlash = "http://example.com/path" ∧
    resolveLocation exHostW exPathBare = "http://example.com/path" ∧
    resolveLocation exHostW exAbsUrl = exAbsUrl := by
  refine ⟨?_, ?_, ?_⟩
  · have h := (c5_location_resolution exHostW exPathSlash).2.1 (by rfl) (by rfl) (by rfl)
    exact h.trans (by rfl)
  · have h := (c5_location_resolution exHostW exPathBare).2.2 (by rfl) (by rfl) (by rfl)
    exact h.trans (by rfl)
  · exact (c5_location_resolution exHostW exAbsUrl).1 (Or.inr (by rfl))

def cx6Resp : HttpResponse := { status_code := 204, location := none, url := "http://c6.example/" }

def cx6Http : String → HttpResult := fun _ => HttpResult.ok cx6Resp

def cx6Host : String := "c6.example"

/-- Counterexample to C6 as stated: a 204 initial response is a non-redirect
success, yet the trace is `No Redirect`, not the terminal entry
`204 => {final_url} (No redirection)` — the code tests `status_code == 200`
only. -/
theorem c6_counterexample :
    cx6Http (schemeHttp ++ cx6Host) = HttpResult.ok cx6Resp ∧
    200 ≤ cx6Resp.status_code ∧ cx6Resp.status_code < 300 ∧
    cx6Resp.is_redirect = false ∧
    redirectPathOf cx6Http cx6Host = noRedirectMsg ∧
    redirectPathOf cx6Http cx6Host ≠
      toString cx6Resp.status_code ++ arrow ++ cx6Resp.url ++ noRedirection :=
  ⟨rfl, by decide, by decide, rfl, rfl, by decide⟩

/-- C6 (amended): only an initial response with status code exactly 200
yields the single terminal entry `200 => {final_url} (No redirection)`; any
other non-redirect initial response — including non-200 successes — yields
the single entry `No Redirect`. -/
theorem c6_initial_response_amended (http : String → HttpResult) (hostname : String)
    (r : HttpResponse) (h : http (schemeHttp ++ hostname) = .ok r) :
    (r.status_code = 200 →
      redirectPathOf http hostname = twoHundredArrow ++ r.url ++ noRedirection) ∧
    (r.status_code ≠ 200 → r.is_redirect = false →
      redirectPathOf http hostname = noRedirectMsg) := by
  constructor
  · intro h200
    unfold redirectPathOf
    rw [h]
    simp [h200]
  · intro hne hir
    unfold redirectPathOf
    rw [h]
    have hbeq : (r.status_code == 200) = false := by simpa using hne
    simp [hbeq, hir]

def w6Http : String → HttpResult := fun _ => HttpResult.ok w200

/-- Witness for C6 (amended): a plain 200 gives the terminal entry; the 204
environment gives `No Redirect`. -/
theorem c6_initial_response_amended_witness :
    redirectPathOf w6Http wHost = twoHundredArrow ++ w200.url ++ noRedirection ∧
    redirectPathOf cx6Http cx6Host = noRedirectMsg :=
  ⟨(c6_initial_response_amended w6Http wHost w200 rfl).1 rfl,
   (c6_initial_response_amended cx6Http cx6Host cx6Resp rfl).2 (by decide) rfl⟩

/-- C7: a request-level failure at any step yields the single terminal entry
`Request Failed: {e}` — both when the very first GET raises and when a GET
inside the follow loop raises — and the error result of the loop does not depend
on the hops accumulated before the failure (they are discarded). -/
theorem c7_request_failure_atomic (http : String → HttpResult) (hostname : String) (e : String) :
    (http (schemeHttp ++ hostname) = .error e →
      redirectPathOf http hostname = requestFailed ++ e) ∧
    (∀ r : HttpResponse, http (schemeHttp ++ hostname) = .ok r → r.is_redirect = true →
      followRedirects http hostname r [] 5 = .error e →
      redirectPathOf http hostname = requestFailed ++ e) ∧
    (∀ (fuel : Nat) (r : HttpResponse) (acc acc2 : List String),
      followRedirects http hostname r acc fuel = .error e →
      followRedirects http hostname r acc2 fuel = .error e) := by
  refine ⟨?_, ?_, ?_⟩
  · exact redirectPathOf_initial_error http hostname e
  · intro r hok hir hfail
    rw [redirectPathOf_redirect http hostname r hok hir, hfail]
  · intro fuel r acc acc2 h
    exact followRedirects_error_acc http hostname fuel r acc acc2 e h

def w7HttpFail : String → HttpResult := fun _ => HttpResult.error wFailMsg2

def wStart : String := "http://w.example"

def w7HttpMid : String → HttpResult :=
  fun u => if u = wStart then HttpResult.ok w301 else HttpResult.error wFailMsg2

/-- Witness for C7: a first-GET failure and a mid-trace failure both render
as the single `Request Failed: {e}` entry. -/
theorem c7_request_failure_atomic_witness :
    redirectPathOf w7HttpFail wHost = requestFailed ++ wFailMsg2 ∧
    redirectPathOf w7HttpMid wHost = requestFailed ++ wFailMsg2 :=
  ⟨(c7_request_failure_atomic w7HttpFail wHost wFailMsg2).1 rfl,
   (c7_request_failure_atomic w7HttpMid wHost wFailMsg2).2.1 w301 rfl rfl (by rfl)⟩

/-- The three forms a DNS field may take according to its own query outcome:
joined record texts, the per-type "no records found" sentinel, or the
type-specific error string. -/
def threeFormsOf (o : DnsOutcome) (label noneFound : String) (s : String) : Prop :=
  (∃ l : List String, l ≠ [] ∧ o = DnsOutcome.answers l ∧ s = String.intercalate sepComma l) ∨
  (o = DnsOutcome.answers [] ∧ s = noneFound) ∨
  (∃ e : String, o = DnsOutcome.exn e ∧ s = dnsLookup ++ label ++ failedColon ++ e)

theorem dnsRecordsField_threeForms (o : DnsOutcome) (label noneFound : String) :
    threeFormsOf o label noneFound (dnsRecordsField o label noneFound) := by
  unfold threeFormsOf
  cases o with
  | answers l =>
    cases l with
    | nil => exact Or.inr (Or.inl ⟨rfl, by simp [dnsRecordsField]⟩)
    | cons x xs =>
      exact Or.inl ⟨x :: xs, by simp, rfl, by simp [dnsRecordsField]⟩
  | exn e => exact Or.inr (Or.inr ⟨e, rfl, by simp [dnsRecordsField]⟩)

def cx8Msg : String := "resolv.conf not found"

def cx8CnameVal : String := "alias.example.net."

def cx8Dns : DnsEnv :=
  { init := some cx8Msg, a := DnsOutcome.answers [], cname := DnsOutcome.answers [cx8CnameVal],
    ns := DnsOutcome.answers [] }

def cx8Http : String → HttpResult := fun _ => HttpResult.error cx8Msg

def cx8Host : String := "c8.example"

/-- Counterexample to C8 as stated: when `dns.resolver.Resolver()` itself
raises (the outer `except` of lines 76-77), the CNAME field is left as the
empty string even though the CNAME query outcome would have produced a
joined record value — the field holds none of the three claimed forms. -/
theorem c8_counterexample :
    (check_redirects_and_dns cx8Dns cx8Http cx8Host).2.cname_records = "" ∧
    cx8Dns.cname = DnsOutcome.answers [cx8CnameVal] ∧
    ¬ threeFormsOf cx8Dns.cname labelCNAME noCNAME
        ((check_redirects_and_dns cx8Dns cx8Http cx8Host).2.cname_records) := by
  refine ⟨rfl, rfl, ?_⟩
  intro h
  rcases h with ⟨l, hne, hl, hs⟩ | ⟨hl, hs⟩ | ⟨e, hl, hs⟩
  · have hlv : l = [cx8CnameVal] := by
      have : DnsOutcome.answers [cx8CnameVal] = DnsOutcome.answers l := hl
      exact (DnsOutcome.answers.inj this).symm
    rw [hlv] at hs
    exact absurd hs (by decide)
  · exact absurd hl (by decide)
  · exact DnsOutcome.noConfusion (show DnsOutcome.answers [cx8CnameVal] = DnsOutcome.exn e from hl)

/-- C8 (amended): provided the resolver initialization step succeeds, each
of the three DNSRecordSet fields holds exactly the form dictated by the
outcome of its own query — joined record texts, the per-type "no records found"
sentinel, or the type-specific error string — so the three resolutions are
independent: each field is a function of its own outcome only. (If resolver
initialization itself fails, the A field holds a general
`DNS Lookup Failed: {e}` string and the CNAME/NS fields stay empty.) -/
theorem c8_dns_three_forms_amended (denv : DnsEnv) (http : String → HttpResult)
    (hostname : String) (hinit : denv.init = none) :
    threeFormsOf denv.a labelA noA
        ((check_redirects_and_dns denv http hostname).2.a_records) ∧
    threeFormsOf denv.cname labelCNAME noCNAME
        ((check_redirects_and_dns denv http hostname).2.cname_records) ∧
    threeFormsOf denv.ns labelNS noNS
        ((check_redirects_and_dns denv http hostname).2.ns_records) := by
  simp only [check_redirects_and_dns, hinit]
  exact ⟨dnsRecordsField_threeForms denv.a labelA noA,
    dnsRecordsField_threeForms denv.cname labelCNAME noCNAME,
    dnsRecordsField_threeForms denv.ns labelNS noNS⟩

def w8Msg : String := "A query timed out"

def w8Dns : DnsEnv :=
  { init := none, a := DnsOutcome.exn w8Msg, cname := DnsOutcome.answers [cx8CnameVal],
    ns := DnsOutcome.answers [] }

/-- Witness for C8 (amended): the A query fails while CNAME succeeds and NS
has no records — each field gets its own form independently. -/
theorem c8_dns_three_forms_amended_witness :
    threeFormsOf w8Dns.a labelA noA
        ((check_redirects_and_dns w8Dns cx8Http cx8Host).2.a_records) ∧
    threeFormsOf w8Dns.cname labelCNAME noCNAME
        ((check_redirects_and_dns w8Dns cx8Http cx8Host).2.cname_records) ∧
    threeFormsOf w8Dns.ns labelNS noNS
        ((check_redirects_and_dns w8Dns cx8Http cx8Host).2.ns_records) :=
  c8_dns_three_forms_amended w8Dns cx8Http cx8Host rfl

/-- C10: when the initial response is a redirect and the trace completes
without a request failure, the rendered Redirect Path is the ` | `-join of
the followed hops — at least 1 and at most 5 of them, each of the form
`{status_code} => {resolved_location}` with the own redirect status code of
the redirecting response — followed by exactly one final entry
`{status_code} => {url}` for the response that ended the loop (so 2 to 6
entries in total). -/
theorem c10_redirect_trace_shape (http : String → HttpResult) (hostname : String)
    (r : HttpResponse) (reds : List String) ( fin : HttpResponse)
    (h0 : http (schemeHttp ++ hostname) = .ok r)
    (hir : r.is_redirect = true)
    (h : followRedirects http hostname r [] 5 = .ok (reds, fin)) :
    redirectPathOf http hostname =
      String.intercalate sepPipe
        (reds ++ [toString fin.status_code ++ arrow ++ fin.url]) ∧
    1 ≤ reds.length ∧ reds.length ≤ 5 ∧
    ∀ s ∈ reds, hopShape hostname s := by
  have hrender : redirectPathOf http hostname =
      String.intercalate sepPipe
        (reds ++ [toString fin.status_code ++ arrow ++ fin.url]) := by
    rw [redirectPathOf_redirect http hostname r h0 hir, h]
  have hlen := (followRedirects_ok_length http hostname 5 r [] reds fin h).1
  obtain ⟨⟨rawLoc, hloc⟩, hcontains⟩ := is_redirect_parts r hir
  have h5 : followRedirects http hostname r [] (4 + 1) = .ok (reds, fin) := h
  rw [followRedirects_redirect_step http hostname 4 r [] rawLoc hir hloc] at h5
  cases hh : http (resolveLocation hostname rawLoc) with
  | error e => rw [hh] at h5; simp at h5
  | ok r2 =>
    rw [hh] at h5
    obtain ⟨suffix, hs, hall⟩ := followRedirects_ok_shape http hostname 4 r2 _ reds fin h5
    refine ⟨hrender, ?_, by simpa using hlen, ?_⟩
    · rw [hs]; simp
    · intro s hmem
      rw [hs] at hmem
      rcases List.mem_append.mp hmem with h1 | h2
      · have hs1 : s = toString r.status_code ++ arrow ++ resolveLocation hostname rawLoc := by
          simpa using h1
        exact ⟨r.status_code, rawLoc, hcontains, hs1⟩
      · exact hall s h2

def wHttp10 : String → HttpResult :=
  fun u => if u = wStart then HttpResult.ok w301 else HttpResult.ok w200

/-- Witness for C10: a 301 followed by a 200 renders as two ` | `-joined
entries, with one followed hop. -/
theorem c10_redirect_trace_shape_witness :
    redirectPathOf wHttp10 wHost =
      String.intercalate sepPipe
        ([wEntry] ++ [toString w200.status_code ++ arrow ++ w200.url]) ∧
    1 ≤ [wEntry].length ∧ [wEntry].length ≤ 5 :=
  ⟨(c10_redirect_trace_shape wHttp10 wHost w301 [wEntry] w200 rfl rfl (by rfl)).1,
   (c10_redirect_trace_shape wHttp10 wHost w301 [wEntry] w200 rfl rfl (by rfl)).2.1,
   (c10_redirect_trace_shape wHttp10 wHost w301 [wEntry] w200 rfl rfl (by rfl)).2.2.1⟩
